import Mathlib

/-!
Shallow embedding of the container-imagination repository
(`containability/containability.py`, `paper/figure4.py`,
`ur5_robot/imaginebot_withgripper.py`) and verification of its
natural-language specification.

Real-valued float computations of the Python source are embedded as `ℝ`;
Python integers as `ℕ` (all relevant quantities are nonnegative); code that
can raise an exception is embedded with `Except`.  The repository is
Python 2 (`figure4.py` uses a `print` statement and imports
`division` from `__future__`; `containability.py` does not), so `/` on two
ints in `containability.py` is floor division.
-/

namespace ContainerImagination

/-! ### Embedding of `containability/containability.py` -/

abbrev Vec3 := ℝ × ℝ × ℝ

/-- Axis-aligned bounding box as returned by `p.getAABB`: `lo` is
`aabb[0]` (min corner), `hi` is `aabb[1]` (max corner). -/
structure AABB where
  lo : Vec3
  hi : Vec3

/-- `self.sphere_num = 225`. -/
def sphere_num : ℕ := 225

/-- `self.sphere_in_percentage_threshold = 0.2`. -/
noncomputable def sphere_in_percentage_threshold : ℝ := 0.2

/-- `self.simulation_iteration = 1000`. -/
def simulation_iteration : ℕ := 1000

/-- Python exceptions relevant to this embedding. -/
inductive PyError where
  | zeroDivision
deriving DecidableEq

/-- `np.linspace(a, b, n)`: `n` evenly spaced values from `a` to `b`
inclusive; for `n = 1` numpy returns `[a]`, for `n = 0` the empty array. -/
noncomputable def linspace (a b : ℝ) (n : ℕ) : List ℝ :=
  if n = 1 then [a]
  else (List.range n).map fun (i : ℕ) => a + (b - a) * (i : ℝ) / ((n : ℝ) - 1)

/-- `obj_aabb_xy_center = [(aabb[0][i] + aabb[1][i])/2 for i in range(2)]`. -/
noncomputable def aabb_xy_center (box : AABB) : ℝ × ℝ :=
  ((box.lo.1 + box.hi.1) / 2, (box.lo.2.1 + box.hi.2.1) / 2)

/-- `obj_aabb_xy_range = [abs(aabb[0][i] - aabb[1][i]) for i in range(2)]`. -/
noncomputable def aabb_xy_range (box : AABB) : ℝ × ℝ :=
  (|box.lo.1 - box.hi.1|, |box.lo.2.1 - box.hi.2.1|)

/-- `sphere_per_length = math.sqrt(self.sphere_num/(range[0] * range[1]))`. -/
noncomputable def sphere_per_length (rx ry : ℝ) : ℝ :=
  Real.sqrt (sphere_num / (rx * ry))

/-- `x_sphere_num = math.floor(sphere_per_length * range[0])` (the argument is
nonnegative, so `math.floor` lands in `ℕ`). -/
noncomputable def x_sphere_num (rx ry : ℝ) : ℕ :=
  ⌊sphere_per_length rx ry * rx⌋₊

/-- `y_sphere_num = math.floor(sphere_per_length * range[1])`. -/
noncomputable def y_sphere_num (rx ry : ℝ) : ℕ :=
  ⌊sphere_per_length rx ry * ry⌋₊

/-- Body of the `for i in range(self.sphere_num)` loop of
`reset_sphere_drop`, for grid dimensions `nx ny` already known to be nonzero
(`nx = 0` raises before any position is produced, see `reset_sphere_drop`).
The lattice branch is taken exactly when indexing `sphere_drop_x[x_idx]` and
`sphere_drop_y[y_idx]` succeeds; otherwise the bare `except:` yields the
randomized fallback.  `randx i`, `randy i` stand for the two
`np.random.random()` draws of iteration `i`. -/
noncomputable def sphere_drop_candidate (cx cy rx ry z : ℝ) (nx ny : ℕ)
    (randx randy : ℕ → ℝ) (i : ℕ) : Vec3 :=
  let y_idx := i / nx
  let x_idx := i % nx
  if x_idx < nx ∧ y_idx < ny then
    ((linspace (-rx / 2) (rx / 2) nx).getD x_idx 0 + cx,
     (linspace (-ry / 2) (ry / 2) ny).getD y_idx 0 + cy,
     z)
  else
    (cx + randx i * rx / 2, cy + randy i * ry / 2, z + 0.05)

/-- The full `self.sphere_drop_pos` list built by `reset_sphere_drop`
(assuming no exception escapes, i.e. `nx ≠ 0`). -/
noncomputable def sphere_drop_list (box : AABB) (randx randy : ℕ → ℝ) : List Vec3 :=
  let c := aabb_xy_center box
  let r := aabb_xy_range box
  let z := box.hi.2.2 + 0.01
  (List.range sphere_num).map
    (sphere_drop_candidate c.1 c.2 r.1 r.2 z
      (x_sphere_num r.1 r.2) (y_sphere_num r.1 r.2) randx randy)

/-- `Containability.reset_sphere_drop`.  Two uncaught `ZeroDivisionError`
paths exist: `sphere_per_length` divides by `range[0] * range[1]`, and the
loop computes `math.floor(i / x_sphere_num)` and `i % x_sphere_num` outside
the `try:` block, so `x_sphere_num = 0` raises at `i = 0`. -/
noncomputable def reset_sphere_drop (box : AABB) (randx randy : ℕ → ℝ) :
    Except PyError (List Vec3) :=
  let r := aabb_xy_range box
  if r.1 * r.2 = 0 then Except.error PyError.zeroDivision
  else if x_sphere_num r.1 r.2 = 0 then Except.error PyError.zeroDivision
  else Except.ok (sphere_drop_list box randx randy)

/-- The point-in-box test of `Containability.checkincup`: all scales are
magnified by 100, and the per-axis absolute distance to the center must be
strictly below the half-range. -/
def inBox (box : AABB) (pos : Vec3) : Prop :=
  |pos.1 * 100 - (box.lo.1 + box.hi.1) / 2 * 100| < |box.lo.1 - box.hi.1| * 100 / 2 ∧
  |pos.2.1 * 100 - (box.lo.2.1 + box.hi.2.1) / 2 * 100| < |box.lo.2.1 - box.hi.2.1| * 100 / 2 ∧
  |pos.2.2 * 100 - (box.lo.2.2 + box.hi.2.2) / 2 * 100| < |box.lo.2.2 - box.hi.2.2| * 100 / 2

noncomputable instance (box : AABB) (pos : Vec3) : Decidable (inBox box pos) := by
  unfold inBox; infer_instance

/-- `Containability.checkincup`: returns `len(self.sphere_in_drop_pos)`
together with the rebuilt `self.sphere_in_drop_pos` (the drop positions of
the spheres currently inside the box).  `spheres` are the current sphere
positions, `drops` the recorded drop positions. -/
noncomputable def checkincup (box : AABB) (spheres drops : List Vec3) :
    ℕ × List Vec3 :=
  let sphere_in_drop_pos :=
    (spheres.zip drops).filterMap fun pd => if inBox box pd.1 then some pd.2 else none
  (sphere_in_drop_pos.length, sphere_in_drop_pos)

/-- The `setGravity` call (if any) issued by iteration `i` of the
`get_containability` main loop with `n = self.simulation_iteration`
(`int(...)` on the nonnegative exact divisions is `ℕ` division).  `none`
means the iteration sets no gravity (the `if/elif` chain falls through). -/
noncomputable def setGravityAt (n i : ℕ) : Option Vec3 :=
  if n / 5 < i ∧ i < n / 2 then
    some (5 + 5 * Real.sin (Real.pi / 2 * ((i - n / 5 : ℕ) : ℝ) / ((3 * n / 10 : ℕ) : ℝ)),
          5 + 5 * Real.sin (Real.pi / 2 * ((i - n / 5 : ℕ) : ℝ) / ((3 * n / 10 : ℕ) : ℝ)),
          -10)
  else if n / 2 ≤ i ∧ i < 3 * n / 5 then some (10, 10, -10)
  else if 3 * n / 5 ≤ i ∧ i < 9 * n / 10 then
    some (-5 - 5 * Real.sin (Real.pi / 2 * ((i - 3 * n / 5 : ℕ) : ℝ) / ((3 * n / 10 : ℕ) : ℝ)),
          -5 - 5 * Real.sin (Real.pi / 2 * ((i - 3 * n / 5 : ℕ) : ℝ) / ((3 * n / 10 : ℕ) : ℝ)),
          -10)
  else if 9 * n / 10 ≤ i then some (-10, -10, -10)
  else none

/-- The gravity vector in force while `p.stepSimulation()` of iteration `i`
executes: `(0, 0, -10)` from `__init__` until some earlier iteration issued a
`setGravity` call (each iteration steps first, then sets gravity). -/
noncomputable def effectiveGravity (n : ℕ) : ℕ → Vec3
  | 0 => (0, 0, -10)
  | i + 1 => (setGravityAt n i).getD (effectiveGravity n i)

/-- The final verdict computation of `get_containability`:
`sphere_num_percentage = sphere_in_box_num / self.sphere_num` is Python 2
floor division of two ints, then compared with the float threshold. -/
noncomputable def containability_verdict (sphere_in_box_num : ℕ) : Bool :=
  decide (sphere_in_percentage_threshold < ((sphere_in_box_num / sphere_num : ℕ) : ℝ))

/-- The containability verdict as the spec describes it (true division):
`contained_count / N > threshold(0.2)`.  Stated for comparison with
`containability_verdict`. -/
noncomputable def spec_containability_verdict (sphere_in_box_num : ℕ) : Bool :=
  decide (sphere_in_percentage_threshold < (sphere_in_box_num : ℝ) / (sphere_num : ℝ))

/-- One iteration of the `get_containability` simulation loop over an
abstract physics world `α`: `stepSim` is `p.stepSimulation`, `setG` is
`p.setGravity`, `countIn` is the (world-read-only) count returned by
`checkincup`.  The second state component records the mid-run measurement
`sphere_in_num` taken at `i == int(n/5)`. -/
noncomputable def dropLoopBody {α : Type} (stepSim : α → α) (setG : Vec3 → α → α)
    (countIn : α → ℕ) (n : ℕ) (st : α × Option ℕ) (i : ℕ) : α × Option ℕ :=
  let w := stepSim st.1
  let mid := if i = n / 5 then some (countIn w) else st.2
  match setGravityAt n i with
  | some g => (setG g w, mid)
  | none => (w, mid)

/-- The `for i in range(self.simulation_iteration)` loop of
`get_containability`. -/
noncomputable def runDropLoop {α : Type} (stepSim : α → α) (setG : Vec3 → α → α)
    (countIn : α → ℕ) (n : ℕ) (w0 : α) : α × Option ℕ :=
  (List.range n).foldl (dropLoopBody stepSim setG countIn n) (w0, none)

/-- `Containability.get_containability` over an abstract physics world:
run the loop, measure `sphere_in_box_num = checkincup(...)` on the final
world, return the threshold verdict. -/
noncomputable def get_containability {α : Type} (stepSim : α → α) (setG : Vec3 → α → α)
    (countIn : α → ℕ) (w0 : α) : Bool :=
  containability_verdict (countIn (runDropLoop stepSim setG countIn simulation_iteration w0).1)

/-- Gravity schedule as claim C3 states it: the horizontal component the
claim asserts for step `i` out of `n` (stated from the spec's words, for
comparison with `setGravityAt`/`effectiveGravity`). -/
noncomputable def claimGravityHorizontal (n i : ℕ) : ℝ :=
  if i < n / 5 then 0
  else if i < n / 2 then
    5 + 5 * Real.sin (Real.pi / 2 * ((i - n / 5 : ℕ) : ℝ) / ((3 * n / 10 : ℕ) : ℝ))
  else if i < 3 * n / 5 then 10
  else if i < 9 * n / 10 then
    -5 - 5 * Real.sin (Real.pi / 2 * ((i - 3 * n / 5 : ℕ) : ℝ) / ((3 * n / 10 : ℕ) : ℝ))
  else -10

/-! ### Embedding of `paper/figure4.py`

`figure4.py` imports `division` from `__future__`, so all its `/` are true
division; `int(...)` on nonnegative exact quotients is `ℕ` division. -/

/-- `self.pour_num = 8`. -/
def pour_num : ℕ := 8

/-- `self.simulation_iteration = 600` in `BottlePour`. -/
def pour_simulation_iteration : ℕ := 600

/-- `planar_angle = k / self.pour_num * 2 * np.pi`. -/
noncomputable def planar_angle (k : ℕ) : ℝ :=
  (k : ℝ) / (pour_num : ℝ) * 2 * Real.pi

/-- `indent + j * self.indent_len`: total retreat distance from the nominal
pour point for indent index `j`. -/
noncomputable def indent_offset (indent indentLen : ℝ) (j : ℕ) : ℝ :=
  indent + (j : ℝ) * indentLen

/-- `self.pour_pos` computed in `bottle_pour` for a planar angle and a
retreat distance `off`: retreat from the nominal point along
`(cos, sin)` of the angle; the z coordinate is kept. -/
noncomputable def pour_point (nominal : Vec3) (theta off : ℝ) : Vec3 :=
  (nominal.1 - off * Real.cos theta,
   nominal.2.1 - off * Real.sin theta,
   nominal.2.2)

/-- `self.bottle_pos`: the bottle base is placed `bottle_half_length`
(`= bottle_aabb[1][0]`) behind the pour point along the planar direction,
with the z offset `-bottle_aabb[0][2] - 0.014` for the tip. -/
noncomputable def bottle_pos (pp : Vec3) (theta halfLength bottleLoZ : ℝ) : Vec3 :=
  (pp.1 - halfLength * Real.cos theta,
   pp.2.1 - halfLength * Real.sin theta,
   pp.2.2 + (-bottleLoZ - 0.014))

/-- Rotation of a vector about the world z axis by `theta` (the yaw set by
`p.getQuaternionFromEuler([0, 0, planar_angle])`). -/
noncomputable def rotZ (theta : ℝ) (v : Vec3) : Vec3 :=
  (Real.cos theta * v.1 - Real.sin theta * v.2.1,
   Real.sin theta * v.1 + Real.cos theta * v.2.1,
   v.2.2)

/-- The bottle mouth: the point at offset `halfLength` along the bottle's
yaw-rotated +x axis from the bottle base position (the point the fixed
constraint pins to `self.pour_pos`). -/
noncomputable def mouth_point (bp : Vec3) (theta halfLength : ℝ) : Vec3 :=
  (bp.1 + (rotZ theta (halfLength, 0, 0)).1,
   bp.2.1 + (rotZ theta (halfLength, 0, 0)).2.1,
   bp.2.2 + (rotZ theta (halfLength, 0, 0)).2.2)

/-- The pitch commanded at tip-motion step `i`:
`2*np.pi/5 * math.sin(math.pi * 2 * i / int(4 * 5 * self.simulation_iteration / 6))`. -/
noncomputable def commandedPitch (i : ℕ) : ℝ :=
  2 * Real.pi / 5 *
    Real.sin (Real.pi * 2 * (i : ℝ) / ((4 * 5 * pour_simulation_iteration / 6 : ℕ) : ℝ))

/-- The constraint orientation command issued at simulation step `i` of
`bottle_pour`: the first `int(5*T/6)` steps command the pitch profile, the
remaining `int(T/6)` steps only step the simulation (`none`). -/
noncomputable def pourTipCommand (i : ℕ) : Option ℝ :=
  if i < 5 * pour_simulation_iteration / 6 then some (commandedPitch i) else none

/-- `BottlePour.checkspillage`: `spill_num += content_z < self.obj_aabb[0][2]`
over all contents (Python adds the bool as 0/1). -/
noncomputable def checkspillage (contentZ : List ℝ) (objLoZ : ℝ) : ℕ :=
  contentZ.foldl (fun spill_num z => spill_num + if z < objLoZ then 1 else 0) 0

/-- `for k in [7]`: the single planar-angle index the sweep evaluates. -/
def pour_angle_indices : List ℕ := [7]

/-- The `spill_list` returned by `BottlePour.bottle_pour`, over an abstract
simulation: `finalContentZ k j` gives the final content z coordinates after
the tip motion at angle index `k` and indent index `j`; `objLoZ` is
`self.obj_aabb[0][2]` captured at construction. -/
noncomputable def bottle_pour (indentNum : ℕ) (finalContentZ : ℕ → ℕ → List ℝ)
    (objLoZ : ℝ) : List (List ℕ) :=
  pour_angle_indices.map fun k =>
    (List.range indentNum).map fun j => checkspillage (finalContentZ k j) objLoZ

/-! ### Embedding of `ur5_robot/imaginebot_withgripper.py` -/

/-- `self.posErrorTolerance = 0.1`. -/
noncomputable def posErrorTolerance : ℝ := 0.1

/-- `self.ornErrorTolerance = 0.15`. -/
noncomputable def ornErrorTolerance : ℝ := 0.15

/-- `self.jointErrorTolerance = 0.001`. -/
noncomputable def jointErrorTolerance : ℝ := 0.001

/-- `self.maxControlTimeStep = 2400`. -/
def maxControlTimeStep : ℕ := 2400

/-- The summed joint error of `jointErrorFlag`: sum over the six
`robotControlJoints` of the absolute difference between the joint reading
and its target. -/
noncomputable def jointError (cur target : Fin 6 → ℝ) : ℝ :=
  Finset.univ.sum fun i => |cur i - target i|

/-- `ImaginebotWithGripper.jointErrorFlag`: `False` iff the summed error is
at most `jointErrorTolerance`. -/
noncomputable def jointErrorFlag (cur target : Fin 6 → ℝ) : Bool :=
  if jointError cur target ≤ jointErrorTolerance then false else true

/-- `ImaginebotWithGripper.fingerErrorFlag` reduced to the two error
scalars it compares: `False` iff the position error is at most
`posErrorTolerance` and the orientation error at most `ornErrorTolerance`. -/
noncomputable def fingerErrorFlag (posErr ornErr : ℝ) : Bool :=
  if posErr ≤ posErrorTolerance ∧ ornErr ≤ ornErrorTolerance then false else true

/-- The `while error_flag:` loop of `go_to` with a remaining step budget:
each pass issues the motor commands and steps the simulation (`step`),
recomputes the flag, and exits when the flag clears or the budget is
exhausted (the loop body always runs at least once when the budget is
positive, as `error_flag` starts `True`). -/
def controlLoop {α : Type} (step : α → α) (flag : α → Bool) : ℕ → α → α
  | 0, w => w
  | n + 1, w =>
    let w2 := step w
    if flag w2 then controlLoop step flag n w2 else w2

/-- `ImaginebotWithGripper.go_to` over an abstract world `α`: run the
control loop with budget `maxControlTimeStep`, then raise `ValueError`
(`Except.error`) iff `fingerErrorFlag` reports the final finger pose out of
tolerance; otherwise return normally with the final world. -/
noncomputable def go_to {α : Type} (step : α → α) (readJoints : α → Fin 6 → ℝ)
    (target : Fin 6 → ℝ) (fingerPosErr fingerOrnErr : α → ℝ) (w0 : α) :
    Except Unit α :=
  let wf := controlLoop step (fun w => jointErrorFlag (readJoints w) target)
    maxControlTimeStep w0
  if fingerErrorFlag (fingerPosErr wf) (fingerOrnErr wf) then Except.error ()
  else Except.ok wf

/-! ### Helper lemmas -/

lemma sqrt_eq_of_sq {a b : ℝ} (hb : 0 ≤ b) (h : b ^ 2 = a) : Real.sqrt a = b := by
  rw [← h, Real.sqrt_sq hb]

lemma checkspillage_eq_countP_aux (lo : ℝ) :
    ∀ (zs : List ℝ) (acc : ℕ),
      zs.foldl (fun spill_num z => spill_num + if z < lo then 1 else 0) acc
        = acc + zs.countP fun z => decide (z < lo) := by
  intro zs
  induction zs with
  | nil => intro acc; simp
  | cons z zs ih =>
    intro acc
    rw [List.foldl_cons, ih, List.countP_cons]
    by_cases h : z < lo
    · simp [h]
      omega
    · simp [h]

lemma checkspillage_eq_countP (zs : List ℝ) (lo : ℝ) :
    checkspillage zs lo = zs.countP fun z => decide (z < lo) := by
  unfold checkspillage
  simpa using checkspillage_eq_countP_aux lo zs 0

lemma zip_filterMap_length (p : Vec3 → Prop) [DecidablePred p] :
    ∀ sp dp : List Vec3, sp.length = dp.length →
      ((sp.zip dp).filterMap fun pd => if p pd.1 then some pd.2 else none).length
        = sp.countP fun v => decide (p v) := by
  intro sp
  induction sp with
  | nil => intro dp _; simp
  | cons a sp ih =>
    intro dp hlen
    match dp with
    | [] => simp at hlen
    | b :: dp =>
      simp only [List.zip_cons_cons, List.filterMap_cons, List.countP_cons]
      by_cases h : p a
      · simp only [if_pos h, List.length_cons, ih dp (by simpa using hlen)]
        simp [h]
      · simp only [if_neg h, ih dp (by simpa using hlen)]
        simp [h]

lemma scale_axis (a c h : ℝ) : |a * 100 - c * 100| < h * 100 / 2 ↔ |a - c| < h / 2 := by
  rw [show a * 100 - c * 100 = (a - c) * 100 by ring, abs_mul,
    show |(100 : ℝ)| = 100 by rw [abs_of_nonneg] <;> norm_num]
  constructor
  · intro h1
    nlinarith [abs_nonneg (a - c)]
  · intro h1
    nlinarith [abs_nonneg (a - c)]

/-- C4: for every axis-aligned bounding box and sphere configuration,
`checkincup` returns exactly the number of spheres whose position satisfies,
on all three axes simultaneously, `|position - center| < half-extent` with
center and half-extents computed from the box corners scaled by 100 (which is
equivalent to the unscaled test), it stores the original drop positions of
exactly those spheres, and the returned count is between 0 and `sphere_num`
inclusive. -/
theorem checkincup_count (box : AABB) (sp dp : List Vec3)
    (hsp : sp.length = sphere_num) (hdp : dp.length = sphere_num) :
    (checkincup box sp dp).1 = (sp.countP fun v => decide (inBox box v))
    ∧ (∀ v : Vec3, inBox box v ↔
        (|v.1 - (box.lo.1 + box.hi.1) / 2| < |box.lo.1 - box.hi.1| / 2 ∧
         |v.2.1 - (box.lo.2.1 + box.hi.2.1) / 2| < |box.lo.2.1 - box.hi.2.1| / 2 ∧
         |v.2.2 - (box.lo.2.2 + box.hi.2.2) / 2| < |box.lo.2.2 - box.hi.2.2| / 2))
    ∧ (∀ d : Vec3, d ∈ (checkincup box sp dp).2 ↔
        ∃ pd ∈ sp.zip dp, inBox box pd.1 ∧ pd.2 = d)
    ∧ (checkincup box sp dp).1 ≤ sphere_num := by
  have hcount : (checkincup box sp dp).1 = sp.countP fun v => decide (inBox box v) :=
    zip_filterMap_length (inBox box) sp dp (by rw [hsp, hdp])
  refine ⟨hcount, ?_, ?_, ?_⟩
  · intro v
    unfold inBox
    rw [scale_axis, scale_axis, scale_axis]
  · intro d
    simp only [checkincup, List.mem_filterMap]
    constructor
    · rintro ⟨pd, hmem, hpd⟩
      by_cases h : inBox box pd.1
      · exact ⟨pd, hmem, h, by simpa [if_pos h] using hpd⟩
      · simp [if_neg h] at hpd
    · rintro ⟨pd, hmem, hin, hd⟩
      exact ⟨pd, hmem, by simp [if_pos hin, hd]⟩
  · rw [hcount, ← hsp]
    exact List.countP_le_length _

/-- Witness for C4 at a concrete box and 225 coincident spheres. -/
theorem checkincup_count_witness :
    (checkincup ⟨(0, 0, 0), (1, 1, 1)⟩ (List.replicate 225 ((0.5 : ℝ), (0.5 : ℝ), (0.5 : ℝ)))
        (List.replicate 225 ((0.5 : ℝ), (0.5 : ℝ), (0.5 : ℝ)))).1
      = ((List.replicate 225 ((0.5 : ℝ), (0.5 : ℝ), (0.5 : ℝ))).countP
          fun v => decide (inBox ⟨(0, 0, 0), (1, 1, 1)⟩ v))
    ∧ (∀ v : Vec3, inBox ⟨(0, 0, 0), (1, 1, 1)⟩ v ↔
        (|v.1 - ((0 : ℝ) + 1) / 2| < |(0 : ℝ) - 1| / 2 ∧
         |v.2.1 - ((0 : ℝ) + 1) / 2| < |(0 : ℝ) - 1| / 2 ∧
         |v.2.2 - ((0 : ℝ) + 1) / 2| < |(0 : ℝ) - 1| / 2))
    ∧ (∀ d : Vec3, d ∈ (checkincup ⟨(0, 0, 0), (1, 1, 1)⟩
          (List.replicate 225 ((0.5 : ℝ), (0.5 : ℝ), (0.5 : ℝ)))
          (List.replicate 225 ((0.5 : ℝ), (0.5 : ℝ), (0.5 : ℝ)))).2 ↔
        ∃ pd ∈ (List.replicate 225 ((0.5 : ℝ), (0.5 : ℝ), (0.5 : ℝ))).zip
            (List.replicate 225 ((0.5 : ℝ), (0.5 : ℝ), (0.5 : ℝ))),
          inBox ⟨(0, 0, 0), (1, 1, 1)⟩ pd.1 ∧ pd.2 = d)
    ∧ (checkincup ⟨(0, 0, 0), (1, 1, 1)⟩ (List.replicate 225 ((0.5 : ℝ), (0.5 : ℝ), (0.5 : ℝ)))
        (List.replicate 225 ((0.5 : ℝ), (0.5 : ℝ), (0.5 : ℝ)))).1 ≤ sphere_num :=
  checkincup_count ⟨(0, 0, 0), (1, 1, 1)⟩ _ _ (by rw [List.length_replicate]; rfl)
    (by rw [List.length_replicate]; rfl)

/-- C6: for every planar angle `theta = (k/8)·2π` and every indent index `j`,
`bottle_pour` computes the actual pour point as
`nominal - (indent + j·indent_len)·(cos theta, sin theta, 0)`, and the bottle
mouth — the point at offset `bottle_half_length` along the bottle's
yaw-rotated +x axis from the bottle base position — coincides with the pour
point in x and y for every planar angle. -/
theorem pour_mouth_meets_pour_point (k j : ℕ) (nominal : Vec3)
    (indent indentLen halfLength bottleLoZ : ℝ) :
    pour_point nominal (planar_angle k) (indent_offset indent indentLen j)
      = (nominal.1 - (indent + (j : ℝ) * indentLen) * Real.cos (planar_angle k),
         nominal.2.1 - (indent + (j : ℝ) * indentLen) * Real.sin (planar_angle k),
         nominal.2.2)
    ∧ (mouth_point
        (bottle_pos (pour_point nominal (planar_angle k) (indent_offset indent indentLen j))
          (planar_angle k) halfLength bottleLoZ)
        (planar_angle k) halfLength).1
      = (pour_point nominal (planar_angle k) (indent_offset indent indentLen j)).1
    ∧ (mouth_point
        (bottle_pos (pour_point nominal (planar_angle k) (indent_offset indent indentLen j))
          (planar_angle k) halfLength bottleLoZ)
        (planar_angle k) halfLength).2.1
      = (pour_point nominal (planar_angle k) (indent_offset indent indentLen j)).2.1 := by
  refine ⟨rfl, ?_, ?_⟩
  · simp only [mouth_point, bottle_pos, pour_point, rotZ, indent_offset]
    ring
  · simp only [mouth_point, bottle_pos, pour_point, rotZ, indent_offset]
    ring

/-- C8: `checkspillage` returns exactly the number of content particles whose
final z coordinate is strictly below the target object's lowest bounding-box
z coordinate, the count is between 0 and `content_num`, and `bottle_pour`
collects one such count per indent for the single evaluated planar-angle
index 7 of 8 and returns them. -/
theorem checkspillage_spill_list (indentNum contentNum : ℕ)
    (finalContentZ : ℕ → ℕ → List ℝ) (objLoZ : ℝ)
    (hlen : ∀ j, (finalContentZ 7 j).length = contentNum) :
    bottle_pour indentNum finalContentZ objLoZ
      = [(List.range indentNum).map fun j =>
          ((finalContentZ 7 j).filter fun z => decide (z < objLoZ)).length]
    ∧ ∀ j, checkspillage (finalContentZ 7 j) objLoZ ≤ contentNum := by
  constructor
  · unfold bottle_pour pour_angle_indices
    simp only [List.map_cons, List.map_nil]
    congr 1
    refine List.map_congr_left fun j _ => ?_
    rw [checkspillage_eq_countP, List.countP_eq_length_filter]
  · intro j
    rw [checkspillage_eq_countP, ← hlen j]
    exact List.countP_le_length _

/-- Witness for C8 at a concrete scenario: 40 content particles all at
height 0, spill threshold 1. -/
theorem checkspillage_spill_list_witness :
    bottle_pour 1 (fun _ _ => List.replicate 40 (0 : ℝ)) 1
      = [(List.range 1).map fun _ =>
          ((List.replicate 40 (0 : ℝ)).filter fun z => decide (z < (1 : ℝ))).length]
    ∧ ∀ j : ℕ, checkspillage (List.replicate 40 (0 : ℝ)) 1 ≤ 40 :=
  checkspillage_spill_list 1 40 (fun _ _ => List.replicate 40 (0 : ℝ)) 1
    (fun (_ : ℕ) => by simp)

lemma controlLoop_runs_like_iterate {α : Type} (step : α → α) (flag : α → Bool) :
    ∀ (fuel : ℕ) (w : α), 1 ≤ fuel →
      ∃ k, 1 ≤ k ∧ k ≤ fuel ∧ controlLoop step flag fuel w = step^[k] w
        ∧ (flag (step^[k] w) = false ∨ k = fuel)
        ∧ ∀ m, 1 ≤ m → m < k → flag (step^[m] w) = true := by
  intro fuel
  induction fuel with
  | zero => intro w h; omega
  | succ n ih =>
    intro w _
    by_cases hf : flag (step w)
    · rcases Nat.eq_zero_or_pos n with h0 | hpos
      · subst h0
        refine ⟨1, le_refl 1, le_refl 1, ?_, Or.inr rfl, ?_⟩
        · simp [controlLoop, hf]
        · intro m hm1 hm2; omega
      · obtain ⟨k, hk1, hkn, heq, hcond, hall⟩ := ih (step w) hpos
        refine ⟨k + 1, by omega, by omega, ?_, ?_, ?_⟩
        · rw [Function.iterate_succ_apply]
          simpa [controlLoop, hf] using heq
        · rcases hcond with hc | hc
          · exact Or.inl (by rw [Function.iterate_succ_apply]; exact hc)
          · exact Or.inr (by omega)
        · intro m hm1 hmk
          match m, hm1 with
          | 1, _ => simpa using hf
          | m0 + 2, _ =>
            rw [Function.iterate_succ_apply]
            exact hall (m0 + 1) (by omega) (by omega)
    · refine ⟨1, le_refl 1, by omega, ?_, Or.inl (by simpa using hf), ?_⟩
      · cases n <;> simp [controlLoop, hf]
      · intro m hm1 hm2; omega

lemma jointErrorFlag_false_iff (cur target : Fin 6 → ℝ) :
    jointErrorFlag cur target = false ↔ jointError cur target ≤ jointErrorTolerance := by
  by_cases h : jointError cur target ≤ jointErrorTolerance <;> simp [jointErrorFlag, h]

lemma jointErrorFlag_true_iff (cur target : Fin 6 → ℝ) :
    jointErrorFlag cur target = true ↔ jointErrorTolerance < jointError cur target := by
  by_cases h : jointError cur target ≤ jointErrorTolerance
  · simp only [jointErrorFlag, if_pos h]
    simp [not_lt.mpr h]
  · simp only [jointErrorFlag, if_neg h]
    simp [not_le.mp h]

lemma fingerErrorFlag_true_iff (posErr ornErr : ℝ) :
    fingerErrorFlag posErr ornErr = true ↔
      (posErrorTolerance < posErr ∨ ornErrorTolerance < ornErr) := by
  by_cases h : posErr ≤ posErrorTolerance ∧ ornErr ≤ ornErrorTolerance
  · simp only [fingerErrorFlag, if_pos h]
    simp [not_or, not_lt.mpr h.1, not_lt.mpr h.2]
  · simp only [fingerErrorFlag, if_neg h]
    rw [Decidable.not_and_iff_or_not] at h
    simp only [not_le] at h
    simp [h]

/-- C9: `go_to` iterates the control loop until either the summed joint
error drops to at most `jointErrorTolerance` or `maxControlTimeStep` steps
elapse; exhausting the budget is by itself not an error, and `go_to` raises
(`Except.error`) if and only if, after the loop exits, the finger pose error
exceeds tolerance (position error > 0.1 or orientation error > 0.15);
otherwise it returns normally with the final world. -/
theorem go_to_error_handling {α : Type} (step : α → α) (readJoints : α → Fin 6 → ℝ)
    (target : Fin 6 → ℝ) (fingerPosErr fingerOrnErr : α → ℝ) (w0 : α) :
    (∃ k, 1 ≤ k ∧ k ≤ maxControlTimeStep
      ∧ controlLoop step (fun w => jointErrorFlag (readJoints w) target)
          maxControlTimeStep w0 = step^[k] w0
      ∧ (jointError (readJoints (step^[k] w0)) target ≤ jointErrorTolerance
          ∨ k = maxControlTimeStep)
      ∧ ∀ m, 1 ≤ m → m < k →
          jointErrorTolerance < jointError (readJoints (step^[m] w0)) target)
    ∧ (go_to step readJoints target fingerPosErr fingerOrnErr w0 = Except.error () ↔
        (posErrorTolerance < fingerPosErr (controlLoop step
            (fun w => jointErrorFlag (readJoints w) target) maxControlTimeStep w0)
          ∨ ornErrorTolerance < fingerOrnErr (controlLoop step
            (fun w => jointErrorFlag (readJoints w) target) maxControlTimeStep w0)))
    ∧ (go_to step readJoints target fingerPosErr fingerOrnErr w0
        = Except.ok (controlLoop step (fun w => jointErrorFlag (readJoints w) target)
            maxControlTimeStep w0) ↔
        (fingerPosErr (controlLoop step (fun w => jointErrorFlag (readJoints w) target)
            maxControlTimeStep w0) ≤ posErrorTolerance
          ∧ fingerOrnErr (controlLoop step (fun w => jointErrorFlag (readJoints w) target)
            maxControlTimeStep w0) ≤ ornErrorTolerance)) := by
  set flag := fun w => jointErrorFlag (readJoints w) target with hflag
  set wf := controlLoop step flag maxControlTimeStep w0 with hwf
  refine ⟨?_, ?_, ?_⟩
  · obtain ⟨k, hk1, hkn, heq, hcond, hall⟩ :=
      controlLoop_runs_like_iterate step flag maxControlTimeStep w0
        (by norm_num [maxControlTimeStep])
    refine ⟨k, hk1, hkn, heq, ?_, ?_⟩
    · rcases hcond with hc | hc
      · exact Or.inl ((jointErrorFlag_false_iff _ _).mp hc)
      · exact Or.inr hc
    · intro m hm1 hm2
      exact (jointErrorFlag_true_iff _ _).mp (hall m hm1 hm2)
  · unfold go_to
    rw [← hwf]
    by_cases hf : fingerErrorFlag (fingerPosErr wf) (fingerOrnErr wf) = true
    · rw [if_pos hf]
      simpa using (fingerErrorFlag_true_iff _ _).mp hf
    · rw [if_neg hf]
      have := (not_iff_not.mpr (fingerErrorFlag_true_iff (fingerPosErr wf)
        (fingerOrnErr wf))).mp hf
      simp only [not_or, not_lt] at this
      constructor
      · intro h; exact absurd h (by simp)
      · intro h
        rcases h with h1 | h2
        · exact absurd h1 (not_lt.mpr this.1)
        · exact absurd h2 (not_lt.mpr this.2)
  · unfold go_to
    rw [← hwf]
    by_cases hf : fingerErrorFlag (fingerPosErr wf) (fingerOrnErr wf) = true
    · rw [if_pos hf]
      have := (fingerErrorFlag_true_iff _ _).mp hf
      constructor
      · intro h; exact absurd h (by simp)
      · intro h
        rcases this with h1 | h2
        · exact absurd h1 (not_lt.mpr h.1)
        · exact absurd h2 (not_lt.mpr h.2)
    · rw [if_neg hf]
      have := (not_iff_not.mpr (fingerErrorFlag_true_iff (fingerPosErr wf)
        (fingerOrnErr wf))).mp hf
      simp only [not_or, not_lt] at this
      simp [this]

lemma aabb_xy_range_thin :
    aabb_xy_range ⟨(0, 0, 0), (0.01, 4, 1)⟩ = (0.01, 4) := by
  unfold aabb_xy_range
  rw [show (0 : ℝ) - 0.01 = -0.01 by ring, show (0 : ℝ) - 4 = -4 by ring, abs_neg, abs_neg,
    abs_of_nonneg (by norm_num : (0 : ℝ) ≤ 0.01), abs_of_nonneg (by norm_num : (0 : ℝ) ≤ 4)]

lemma x_sphere_num_thin : x_sphere_num 0.01 4 = 0 := by
  unfold x_sphere_num sphere_per_length sphere_num
  rw [show ((225 : ℕ) : ℝ) / (0.01 * 4) = 5625 by norm_num,
    sqrt_eq_of_sq (by norm_num : (0 : ℝ) ≤ 75) (by norm_num)]
  rw [Nat.floor_eq_zero]
  norm_num

/-- C1 fails on the code: for a footprint with positive ranges 0.01 × 4 the
grid dimension `nx` is `floor(sqrt(225/0.04)·0.01) = floor(0.75) = 0`, and
`reset_sphere_drop` raises `ZeroDivisionError` at the first probe (the
`i % x_sphere_num` / `floor(i / x_sphere_num)` computations sit outside the
`try:` block), instead of placing all probes via the randomized fallback. -/
theorem reset_sphere_drop_nx_zero_raises :
    x_sphere_num (aabb_xy_range ⟨(0, 0, 0), (0.01, 4, 1)⟩).1
        (aabb_xy_range ⟨(0, 0, 0), (0.01, 4, 1)⟩).2 = 0
    ∧ reset_sphere_drop ⟨(0, 0, 0), (0.01, 4, 1)⟩ (fun _ => 0) (fun _ => 0)
        = Except.error PyError.zeroDivision := by
  constructor
  · rw [aabb_xy_range_thin]
    exact x_sphere_num_thin
  · unfold reset_sphere_drop
    rw [aabb_xy_range_thin]
    simp only
    rw [if_neg (by norm_num : ¬((0.01 : ℝ) * 4 = 0)), if_pos x_sphere_num_thin]

/-- C2 fails on the code: `sphere_num_percentage = sphere_in_box_num /
self.sphere_num` is Python 2 floor division of two ints (`containability.py`
has no `from __future__ import division`), so a final retained count of 46
(fraction 46/225 ≈ 0.204, strictly above the 0.2 threshold, for which the
claim demands verdict True) yields percentage 0 and verdict False. -/
theorem get_containability_py2_division :
    @get_containability ℕ id (fun _ w => w) (fun _ => 46) 0 = false
    ∧ sphere_in_percentage_threshold < (46 : ℝ) / (sphere_num : ℝ)
    ∧ spec_containability_verdict 46 = true := by
  refine ⟨?_, ?_, ?_⟩
  · show containability_verdict 46 = false
    unfold containability_verdict sphere_in_percentage_threshold sphere_num
    norm_num
  · unfold sphere_in_percentage_threshold sphere_num
    norm_num
  · unfold spec_containability_verdict sphere_in_percentage_threshold sphere_num
    rw [decide_eq_true_eq]
    norm_num

lemma setGravityAt_none_of_le (i : ℕ) (hi : i ≤ 200) : setGravityAt 1000 i = none := by
  unfold setGravityAt
  have e1 : (1000 / 5 : ℕ) = 200 := by norm_num
  have e2 : (1000 / 2 : ℕ) = 500 := by norm_num
  have e3 : (3 * 1000 / 5 : ℕ) = 600 := by norm_num
  have e4 : (9 * 1000 / 10 : ℕ) = 900 := by norm_num
  rw [if_neg (by rw [e1, e2]; omega), if_neg (by rw [e2, e3]; omega),
    if_neg (by rw [e3, e4]; omega), if_neg (by rw [e4]; omega)]

lemma effectiveGravity_settle : ∀ i : ℕ, i ≤ 200 → effectiveGravity 1000 i = (0, 0, -10) := by
  intro i
  induction i with
  | zero => intro _; simp [effectiveGravity]
  | succ n ih =>
    intro h
    simp only [effectiveGravity, setGravityAt_none_of_le n (by omega), Option.getD_none]
    exact ih (by omega)

/-- C3 fails on the code at the phase boundary `i = T/5 = 200`: the ramp
branch requires `i > int(T/5)` strictly, so iteration 200 issues no
`setGravity` call and the gravity in force there is still `(0, 0, -10)`,
while the claim's schedule puts step 200 in the ramp phase with horizontal
component `5 + 5·sin(0) = 5`. -/
theorem gravity_schedule_boundary_cex :
    setGravityAt simulation_iteration 200 = none
    ∧ effectiveGravity simulation_iteration 200 = (0, 0, -10)
    ∧ claimGravityHorizontal simulation_iteration 200 = 5
    ∧ effectiveGravity simulation_iteration 200
        ≠ (claimGravityHorizontal simulation_iteration 200,
           claimGravityHorizontal simulation_iteration 200, -10) := by
  have hnone : setGravityAt simulation_iteration 200 = none := by
    show setGravityAt 1000 200 = none
    exact setGravityAt_none_of_le 200 le_rfl
  have heff : effectiveGravity simulation_iteration 200 = (0, 0, -10) := by
    show effectiveGravity 1000 200 = (0, 0, -10)
    exact effectiveGravity_settle 200 le_rfl
  have hclaim : claimGravityHorizontal simulation_iteration 200 = 5 := by
    show claimGravityHorizontal 1000 200 = 5
    unfold claimGravityHorizontal
    rw [if_neg (by norm_num), if_pos (by norm_num)]
    rw [show (200 - 1000 / 5 : ℕ) = 0 by norm_num]
    simp
  refine ⟨hnone, heff, hclaim, ?_⟩
  rw [heff, hclaim]
  intro hcontra
  have : (0 : ℝ) = 5 := congrArg Prod.fst hcontra
  norm_num at this

/-- C3 amended: the five-phase agitation schedule holds with the ramp phase
open at its left end: through step `T/5` inclusive no gravity is set and the
effective field stays `(0, 0, -10)`; for `T/5 < i < T/2` the code sets
horizontal components `5 + 5·sin(π/2·(i - T/5)/(3T/10))`; `[T/2, 3T/5)`
sets `(10, 10, -10)`; `[3T/5, 9T/10)` sets the negated ramp; `[9T/10, T)`
sets `(-10, -10, -10)`; the vertical component is `-10` throughout and the
field set is purely a function of the step index and total step count. -/
theorem gravity_schedule_amended (i : ℕ) (hi : i < simulation_iteration) :
    (i ≤ simulation_iteration / 5 → effectiveGravity simulation_iteration i = (0, 0, -10))
    ∧ (simulation_iteration / 5 < i → i < simulation_iteration / 2 →
        setGravityAt simulation_iteration i
          = some (5 + 5 * Real.sin (Real.pi / 2 * ((i : ℝ) - 200) / 300),
                  5 + 5 * Real.sin (Real.pi / 2 * ((i : ℝ) - 200) / 300), -10))
    ∧ (simulation_iteration / 2 ≤ i → i < 3 * simulation_iteration / 5 →
        setGravityAt simulation_iteration i = some (10, 10, -10))
    ∧ (3 * simulation_iteration / 5 ≤ i → i < 9 * simulation_iteration / 10 →
        setGravityAt simulation_iteration i
          = some (-5 - 5 * Real.sin (Real.pi / 2 * ((i : ℝ) - 600) / 300),
                  -5 - 5 * Real.sin (Real.pi / 2 * ((i : ℝ) - 600) / 300), -10))
    ∧ (9 * simulation_iteration / 10 ≤ i →
        setGravityAt simulation_iteration i = some (-10, -10, -10)) := by
  have e1 : (simulation_iteration / 5 : ℕ) = 200 := by norm_num [simulation_iteration]
  have e2 : (simulation_iteration / 2 : ℕ) = 500 := by norm_num [simulation_iteration]
  have e3 : (3 * simulation_iteration / 5 : ℕ) = 600 := by norm_num [simulation_iteration]
  have e4 : (9 * simulation_iteration / 10 : ℕ) = 900 := by norm_num [simulation_iteration]
  refine ⟨?_, ?_, ?_, ?_, ?_⟩
  · intro h
    rw [e1] at h
    exact effectiveGravity_settle i h
  · intro h1 h2
    rw [e1] at h1
    rw [e2] at h2
    show setGravityAt 1000 i = _
    unfold setGravityAt
    rw [if_pos (by constructor <;> [skip; skip] <;> omega)]
    rw [show ((i - 1000 / 5 : ℕ) : ℝ) = (i : ℝ) - 200 by
        rw [show (1000 / 5 : ℕ) = 200 by norm_num, Nat.cast_sub (by omega)]; norm_num,
      show ((3 * 1000 / 10 : ℕ) : ℝ) = 300 by norm_num]
  · intro h1 h2
    rw [e2] at h1
    rw [e3] at h2
    show setGravityAt 1000 i = _
    unfold setGravityAt
    rw [if_neg (by omega), if_pos (by constructor <;> [skip; skip] <;> omega)]
  · intro h1 h2
    rw [e3] at h1
    rw [e4] at h2
    show setGravityAt 1000 i = _
    unfold setGravityAt
    rw [if_neg (by omega), if_neg (by omega),
      if_pos (by constructor <;> [skip; skip] <;> omega)]
    rw [show ((i - 3 * 1000 / 5 : ℕ) : ℝ) = (i : ℝ) - 600 by
        rw [show (3 * 1000 / 5 : ℕ) = 600 by norm_num, Nat.cast_sub (by omega)]; norm_num,
      show ((3 * 1000 / 10 : ℕ) : ℝ) = 300 by norm_num]
  · intro h1
    rw [e4] at h1
    show setGravityAt 1000 i = _
    unfold setGravityAt
    rw [if_neg (by omega), if_neg (by omega), if_neg (by omega), if_pos (by omega)]

/-- Witness for the amended C3 schedule at step 300 of 1000. -/
theorem gravity_schedule_amended_witness :
    (300 ≤ simulation_iteration / 5 →
        effectiveGravity simulation_iteration 300 = (0, 0, -10))
    ∧ (simulation_iteration / 5 < 300 → 300 < simulation_iteration / 2 →
        setGravityAt simulation_iteration 300
          = some (5 + 5 * Real.sin (Real.pi / 2 * ((300 : ℕ) - 200 : ℝ) / 300),
                  5 + 5 * Real.sin (Real.pi / 2 * ((300 : ℕ) - 200 : ℝ) / 300), -10))
    ∧ (simulation_iteration / 2 ≤ 300 → 300 < 3 * simulation_iteration / 5 →
        setGravityAt simulation_iteration 300 = some (10, 10, -10))
    ∧ (3 * simulation_iteration / 5 ≤ 300 → 300 < 9 * simulation_iteration / 10 →
        setGravityAt simulation_iteration 300
          = some (-5 - 5 * Real.sin (Real.pi / 2 * ((300 : ℕ) - 600 : ℝ) / 300),
                  -5 - 5 * Real.sin (Real.pi / 2 * ((300 : ℕ) - 600 : ℝ) / 300), -10))
    ∧ (9 * simulation_iteration / 10 ≤ 300 →
        setGravityAt simulation_iteration 300 = some (-10, -10, -10)) :=
  gravity_schedule_amended 300 (by norm_num [simulation_iteration])

lemma pour_denom_cast : ((4 * 5 * pour_simulation_iteration / 6 : ℕ) : ℝ) = 2000 := by
  norm_num [pour_simulation_iteration]

lemma commandedPitch_zero : commandedPitch 0 = 0 := by
  unfold commandedPitch
  simp

lemma commandedPitch_pos_499 : 0 < commandedPitch 499 := by
  unfold commandedPitch
  rw [pour_denom_cast]
  apply mul_pos (by positivity)
  apply Real.sin_pos_of_pos_of_lt_pi
  · positivity
  · rw [div_lt_iff (by norm_num : (0 : ℝ) < 2000)]
    push_cast
    nlinarith [Real.pi_pos]

lemma commandedPitch_arg_mem (i : ℕ) (hi : i ≤ 500) :
    Real.pi * 2 * (i : ℝ) / 2000 ∈ Set.Icc (-(Real.pi / 2)) (Real.pi / 2) := by
  constructor
  · have : (0 : ℝ) ≤ Real.pi * 2 * (i : ℝ) / 2000 := by positivity
    linarith [Real.pi_pos]
  · rw [div_le_iff (by norm_num : (0 : ℝ) < 2000)]
    have hi2 : (i : ℝ) ≤ 500 := by exact_mod_cast hi
    nlinarith [Real.pi_pos]

lemma commandedPitch_strict_mono (i j : ℕ) (hij : i < j) (hj : j ≤ 500) :
    commandedPitch i < commandedPitch j := by
  unfold commandedPitch
  rw [pour_denom_cast]
  apply mul_lt_mul_of_pos_left _ (by positivity : (0 : ℝ) < 2 * Real.pi / 5)
  apply Real.strictMonoOn_sin (commandedPitch_arg_mem i (by omega))
    (commandedPitch_arg_mem j hj)
  have hij2 : (i : ℝ) < (j : ℝ) := by exact_mod_cast hij
  gcongr

/-- C7 fails on the code: the pitch argument `2π·i/2000` spans only a
quarter period over the `5T/6 = 500` commanded steps, so the commanded pitch
rises from 0 toward the maximum and never returns: at the last commanded
step 499 the pitch is still strictly positive, not back at its start
value 0. -/
theorem pour_tip_no_return_cex :
    commandedPitch 0 = 0
    ∧ 0 < commandedPitch 499
    ∧ pourTipCommand 499 = some (commandedPitch 499)
    ∧ commandedPitch 499 ≠ commandedPitch 0 := by
  refine ⟨commandedPitch_zero, commandedPitch_pos_499, ?_, ?_⟩
  · unfold pourTipCommand
    rw [if_pos (by norm_num [pour_simulation_iteration])]
  · rw [commandedPitch_zero]
    exact ne_of_gt commandedPitch_pos_499

/-- C7 amended: over the first `5T/6 = 500` steps the commanded pitch is the
quarter-period sine ramp `(2π/5)·sin(2π·i/(4·5T/6))`: it starts at 0, is
strictly increasing, and stays strictly below the maximum angle `2π/5`
(approached, not attained, at the end of the sweep); the remaining `T/6`
steps issue no orientation command (hold at the final pose). -/
theorem pour_tip_profile_amended (i j : ℕ) (hij : i < j)
    (hj : j < 5 * pour_simulation_iteration / 6) :
    commandedPitch 0 = 0
    ∧ commandedPitch i < commandedPitch j
    ∧ commandedPitch j < 2 * Real.pi / 5
    ∧ pourTipCommand i = some (commandedPitch i)
    ∧ (∀ m, 5 * pour_simulation_iteration / 6 ≤ m → pourTipCommand m = none) := by
  have e : (5 * pour_simulation_iteration / 6 : ℕ) = 500 := by
    norm_num [pour_simulation_iteration]
  rw [e] at hj
  refine ⟨commandedPitch_zero, commandedPitch_strict_mono i j hij (by omega), ?_, ?_, ?_⟩
  · unfold commandedPitch
    rw [pour_denom_cast]
    have h1 : Real.sin (Real.pi * 2 * (j : ℝ) / 2000) < 1 := by
      rw [← Real.sin_pi_div_two]
      apply Real.strictMonoOn_sin (commandedPitch_arg_mem j (by omega))
        ⟨by linarith [Real.pi_pos], le_rfl⟩
      rw [div_lt_iff (by norm_num : (0 : ℝ) < 2000)]
      have hj2 : (j : ℝ) ≤ 499 := by exact_mod_cast Nat.le_of_lt_succ hj
      nlinarith [Real.pi_pos]
    have h2 := mul_lt_mul_of_pos_left h1 (by positivity : (0 : ℝ) < 2 * Real.pi / 5)
    simpa using h2
  · unfold pourTipCommand
    rw [e, if_pos (by omega)]
  · intro m hm
    rw [e] at hm
    unfold pourTipCommand
    rw [e, if_neg (by omega)]

/-- Witness for the amended C7 profile at steps 100 < 499 of the sweep. -/
theorem pour_tip_profile_amended_witness :
    commandedPitch 0 = 0
    ∧ commandedPitch 100 < commandedPitch 499
    ∧ commandedPitch 499 < 2 * Real.pi / 5
    ∧ pourTipCommand 100 = some (commandedPitch 100)
    ∧ (∀ m, 5 * pour_simulation_iteration / 6 ≤ m → pourTipCommand m = none) :=
  pour_tip_profile_amended 100 499 (by norm_num)
    (by norm_num [pour_simulation_iteration])

lemma getD_map_range {β : Type} (f : ℕ → β) (n k : ℕ) (d : β) (hk : k < n) :
    ((List.range n).map f).getD k d = f k := by
  rw [List.getD_eq_getElem?_getD, List.getElem?_map, List.getElem?_range hk]
  rfl

lemma linspace_getD_mem (a b : ℝ) (n k : ℕ) (hab : a ≤ b) (hk : k < n) :
    a ≤ (linspace a b n).getD k 0 ∧ (linspace a b n).getD k 0 ≤ b := by
  unfold linspace
  by_cases h1 : n = 1
  · subst h1
    have hk0 : k = 0 := by omega
    subst hk0
    simp only [if_pos rfl, List.getD_cons_zero]
    exact ⟨le_rfl, hab⟩
  · rw [if_neg h1, getD_map_range _ _ _ _ hk]
    have hn2 : 2 ≤ n := by omega
    have hn1 : (1 : ℝ) ≤ (n : ℝ) - 1 := by
      have : (2 : ℝ) ≤ (n : ℝ) := by exact_mod_cast hn2
      linarith
    have hba : 0 ≤ b - a := by linarith
    have hk1 : (k : ℝ) ≤ (n : ℝ) - 1 := by
      have : (k : ℝ) + 1 ≤ (n : ℝ) := by exact_mod_cast hk
      linarith
    constructor
    · have : 0 ≤ (b - a) * (k : ℝ) / ((n : ℝ) - 1) := by positivity
      linarith
    · have h2 : (b - a) * (k : ℝ) / ((n : ℝ) - 1) ≤ b - a := by
        rw [div_le_iff (by linarith : (0 : ℝ) < (n : ℝ) - 1)]
        nlinarith
      linarith

lemma sphere_drop_candidate_bounds (cx cy rx ry z : ℝ) (nx ny : ℕ)
    (randx randy : ℕ → ℝ) (i : ℕ) (hrx : 0 ≤ rx) (hry : 0 ≤ ry)
    (hrandx : ∀ m, 0 ≤ randx m ∧ randx m < 1)
    (hrandy : ∀ m, 0 ≤ randy m ∧ randy m < 1) :
    cx - rx / 2 ≤ (sphere_drop_candidate cx cy rx ry z nx ny randx randy i).1
    ∧ (sphere_drop_candidate cx cy rx ry z nx ny randx randy i).1 ≤ cx + rx / 2
    ∧ cy - ry / 2 ≤ (sphere_drop_candidate cx cy rx ry z nx ny randx randy i).2.1
    ∧ (sphere_drop_candidate cx cy rx ry z nx ny randx randy i).2.1 ≤ cy + ry / 2 := by
  unfold sphere_drop_candidate
  by_cases hguard : i % nx < nx ∧ i / nx < ny
  · rw [if_pos hguard]
    have hx := linspace_getD_mem (-rx / 2) (rx / 2) nx (i % nx) (by linarith) hguard.1
    have hy := linspace_getD_mem (-ry / 2) (ry / 2) ny (i / nx) (by linarith) hguard.2
    refine ⟨by linarith [hx.1], by linarith [hx.2], by linarith [hy.1], by linarith [hy.2]⟩
  · rw [if_neg hguard]
    obtain ⟨hx0, hx1⟩ := hrandx i
    obtain ⟨hy0, hy1⟩ := hrandy i
    refine ⟨by nlinarith, by nlinarith, by nlinarith, by nlinarith⟩

/-- C5: for every bounding box with positive x and y ranges whose derived
grid dimensions satisfy `nx ≥ 1` and `ny ≥ 1`, `reset_sphere_drop` returns
without error; each probe of index `i < nx·ny` gets the lattice position
`(x_coords[i mod nx], y_coords[floor(i/nx)], box_top + 0.01)`; probes beyond
the lattice capacity get the randomized fallback position; and every
generated position lies within `[center - half_range, center + half_range]`
on both x and y. -/
theorem reset_sphere_drop_lattice (box : AABB) (randx randy : ℕ → ℝ) (i : ℕ)
    (hrx : 0 < (aabb_xy_range box).1) (hry : 0 < (aabb_xy_range box).2)
    (hnx : 1 ≤ x_sphere_num (aabb_xy_range box).1 (aabb_xy_range box).2)
    (hny : 1 ≤ y_sphere_num (aabb_xy_range box).1 (aabb_xy_range box).2)
    (hrandx : ∀ m, 0 ≤ randx m ∧ randx m < 1)
    (hrandy : ∀ m, 0 ≤ randy m ∧ randy m < 1)
    (hi : i < sphere_num) :
    reset_sphere_drop box randx randy = Except.ok (sphere_drop_list box randx randy)
    ∧ (sphere_drop_list box randx randy).length = sphere_num
    ∧ (i < x_sphere_num (aabb_xy_range box).1 (aabb_xy_range box).2
          * y_sphere_num (aabb_xy_range box).1 (aabb_xy_range box).2 →
        (sphere_drop_list box randx randy).getD i (0, 0, 0)
          = ((linspace (-(aabb_xy_range box).1 / 2) ((aabb_xy_range box).1 / 2)
                (x_sphere_num (aabb_xy_range box).1 (aabb_xy_range box).2)).getD
                (i % x_sphere_num (aabb_xy_range box).1 (aabb_xy_range box).2) 0
              + (aabb_xy_center box).1,
             (linspace (-(aabb_xy_range box).2 / 2) ((aabb_xy_range box).2 / 2)
                (y_sphere_num (aabb_xy_range box).1 (aabb_xy_range box).2)).getD
                (i / x_sphere_num (aabb_xy_range box).1 (aabb_xy_range box).2) 0
              + (aabb_xy_center box).2,
             box.hi.2.2 + 0.01))
    ∧ (x_sphere_num (aabb_xy_range box).1 (aabb_xy_range box).2
          * y_sphere_num (aabb_xy_range box).1 (aabb_xy_range box).2 ≤ i →
        (sphere_drop_list box randx randy).getD i (0, 0, 0)
          = ((aabb_xy_center box).1 + randx i * (aabb_xy_range box).1 / 2,
             (aabb_xy_center box).2 + randy i * (aabb_xy_range box).2 / 2,
             box.hi.2.2 + 0.01 + 0.05))
    ∧ ((aabb_xy_center box).1 - (aabb_xy_range box).1 / 2
          ≤ ((sphere_drop_list box randx randy).getD i (0, 0, 0)).1
        ∧ ((sphere_drop_list box randx randy).getD i (0, 0, 0)).1
          ≤ (aabb_xy_center box).1 + (aabb_xy_range box).1 / 2
        ∧ (aabb_xy_center box).2 - (aabb_xy_range box).2 / 2
          ≤ ((sphere_drop_list box randx randy).getD i (0, 0, 0)).2.1
        ∧ ((sphere_drop_list box randx randy).getD i (0, 0, 0)).2.1
          ≤ (aabb_xy_center box).2 + (aabb_xy_range box).2 / 2) := by
  have hnx0 : 0 < x_sphere_num (aabb_xy_range box).1 (aabb_xy_range box).2 := hnx
  have hgetD : (sphere_drop_list box randx randy).getD i (0, 0, 0)
      = sphere_drop_candidate (aabb_xy_center box).1 (aabb_xy_center box).2
          (aabb_xy_range box).1 (aabb_xy_range box).2 (box.hi.2.2 + 0.01)
          (x_sphere_num (aabb_xy_range box).1 (aabb_xy_range box).2)
          (y_sphere_num (aabb_xy_range box).1 (aabb_xy_range box).2) randx randy i := by
    simp only [sphere_drop_list]
    exact getD_map_range _ sphere_num i (0, 0, 0) hi
  refine ⟨?_, ?_, ?_, ?_, ?_⟩
  · simp only [reset_sphere_drop]
    rw [if_neg (ne_of_gt (mul_pos hrx hry)), if_neg (by omega)]
  · simp only [sphere_drop_list, List.length_map, List.length_range]
  · intro hcap
    rw [hgetD]
    unfold sphere_drop_candidate
    rw [if_pos ⟨Nat.mod_lt i hnx0, (Nat.div_lt_iff_lt_mul hnx0).mpr (by
      rw [mul_comm]; exact hcap)⟩]
  · intro hcap
    rw [hgetD]
    unfold sphere_drop_candidate
    rw [if_neg ?hguard]
    case hguard =>
      rintro ⟨-, hdiv⟩
      rw [Nat.div_lt_iff_lt_mul hnx0, mul_comm] at hdiv
      omega
  · rw [hgetD]
    exact sphere_drop_candidate_bounds _ _ _ _ _ _ _ _ _ i
      (le_of_lt hrx) (le_of_lt hry) hrandx hrandy

/-- C10: every randomized fallback drop position (probe indices beyond the
lattice capacity `nx·ny`) has x in `[center_x, center_x + x_range/2)` and y
in `[center_y, center_y + y_range/2)` — the positive-offset quadrant of the
footprint — and its height is exactly the lattice drop height plus 0.05. -/
theorem reset_sphere_drop_fallback_quadrant (box : AABB) (randx randy : ℕ → ℝ) (i : ℕ)
    (hrx : 0 < (aabb_xy_range box).1) (hry : 0 < (aabb_xy_range box).2)
    (hnx : 1 ≤ x_sphere_num (aabb_xy_range box).1 (aabb_xy_range box).2)
    (hrandx : ∀ m, 0 ≤ randx m ∧ randx m < 1)
    (hrandy : ∀ m, 0 ≤ randy m ∧ randy m < 1)
    (hi : i < sphere_num)
    (hcap : x_sphere_num (aabb_xy_range box).1 (aabb_xy_range box).2
        * y_sphere_num (aabb_xy_range box).1 (aabb_xy_range box).2 ≤ i) :
    (aabb_xy_center box).1 ≤ ((sphere_drop_list box randx randy).getD i (0, 0, 0)).1
    ∧ ((sphere_drop_list box randx randy).getD i (0, 0, 0)).1
      < (aabb_xy_center box).1 + (aabb_xy_range box).1 / 2
    ∧ (aabb_xy_center box).2 ≤ ((sphere_drop_list box randx randy).getD i (0, 0, 0)).2.1
    ∧ ((sphere_drop_list box randx randy).getD i (0, 0, 0)).2.1
      < (aabb_xy_center box).2 + (aabb_xy_range box).2 / 2
    ∧ ((sphere_drop_list box randx randy).getD i (0, 0, 0)).2.2
      = box.hi.2.2 + 0.01 + 0.05 := by
  have hnx0 : 0 < x_sphere_num (aabb_xy_range box).1 (aabb_xy_range box).2 := hnx
  have hgetD : (sphere_drop_list box randx randy).getD i (0, 0, 0)
      = sphere_drop_candidate (aabb_xy_center box).1 (aabb_xy_center box).2
          (aabb_xy_range box).1 (aabb_xy_range box).2 (box.hi.2.2 + 0.01)
          (x_sphere_num (aabb_xy_range box).1 (aabb_xy_range box).2)
          (y_sphere_num (aabb_xy_range box).1 (aabb_xy_range box).2) randx randy i := by
    simp only [sphere_drop_list]
    exact getD_map_range _ sphere_num i (0, 0, 0) hi
  rw [hgetD]
  unfold sphere_drop_candidate
  rw [if_neg ?hguard]
  case hguard =>
    rintro ⟨-, hdiv⟩
    rw [Nat.div_lt_iff_lt_mul hnx0, mul_comm] at hdiv
    omega
  obtain ⟨hx0, hx1⟩ := hrandx i
  obtain ⟨hy0, hy1⟩ := hrandy i
  refine ⟨by nlinarith, by nlinarith, by nlinarith, by nlinarith, rfl⟩

lemma aabb_xy_range_unit : aabb_xy_range ⟨(0, 0, 0), (1, 1, 1)⟩ = (1, 1) := by
  unfold aabb_xy_range
  rw [show (0 : ℝ) - 1 = -1 by ring, abs_neg, abs_of_nonneg (by norm_num : (0 : ℝ) ≤ 1)]

lemma aabb_xy_range_one_four : aabb_xy_range ⟨(0, 0, 0), (1, 4, 1)⟩ = (1, 4) := by
  unfold aabb_xy_range
  rw [show (0 : ℝ) - 1 = -1 by ring, show (0 : ℝ) - 4 = -4 by ring, abs_neg, abs_neg,
    abs_of_nonneg (by norm_num : (0 : ℝ) ≤ 1), abs_of_nonneg (by norm_num : (0 : ℝ) ≤ 4)]

lemma x_sphere_num_unit : x_sphere_num 1 1 = 15 := by
  unfold x_sphere_num sphere_per_length sphere_num
  rw [show ((225 : ℕ) : ℝ) / ((1 : ℝ) * 1) = 15 ^ 2 by norm_num,
    Real.sqrt_sq (by norm_num : (0 : ℝ) ≤ 15), mul_one,
    show (15 : ℝ) = ((15 : ℕ) : ℝ) by norm_num, Nat.floor_natCast]

lemma y_sphere_num_unit : y_sphere_num 1 1 = 15 := by
  unfold y_sphere_num sphere_per_length sphere_num
  rw [show ((225 : ℕ) : ℝ) / ((1 : ℝ) * 1) = 15 ^ 2 by norm_num,
    Real.sqrt_sq (by norm_num : (0 : ℝ) ≤ 15), mul_one,
    show (15 : ℝ) = ((15 : ℕ) : ℝ) by norm_num, Nat.floor_natCast]

lemma x_sphere_num_one_four : x_sphere_num 1 4 = 7 := by
  unfold x_sphere_num sphere_per_length sphere_num
  rw [show ((225 : ℕ) : ℝ) / ((1 : ℝ) * 4) = (15 / 2) ^ 2 by norm_num,
    Real.sqrt_sq (by norm_num : (0 : ℝ) ≤ 15 / 2), mul_one,
    Nat.floor_eq_iff (by norm_num : (0 : ℝ) ≤ 15 / 2)]
  norm_num

lemma y_sphere_num_one_four : y_sphere_num 1 4 = 30 := by
  unfold y_sphere_num sphere_per_length sphere_num
  rw [show ((225 : ℕ) : ℝ) / ((1 : ℝ) * 4) = (15 / 2) ^ 2 by norm_num,
    Real.sqrt_sq (by norm_num : (0 : ℝ) ≤ 15 / 2),
    show (15 / 2 : ℝ) * 4 = ((30 : ℕ) : ℝ) by norm_num, Nat.floor_natCast]

/-- Witness for C5 at the unit-footprint box (grid 15 × 15, capacity
exactly 225) and probe index 7. -/
theorem reset_sphere_drop_lattice_witness :
    reset_sphere_drop ⟨(0, 0, 0), (1, 1, 1)⟩ (fun _ => 0) (fun _ => 0)
      = Except.ok (sphere_drop_list ⟨(0, 0, 0), (1, 1, 1)⟩ (fun _ => 0) (fun _ => 0))
    ∧ (sphere_drop_list ⟨(0, 0, 0), (1, 1, 1)⟩ (fun _ => 0) (fun _ => 0)).length
      = sphere_num := by
  have h := reset_sphere_drop_lattice ⟨(0, 0, 0), (1, 1, 1)⟩ (fun _ => 0) (fun _ => 0) 7
    (by rw [aabb_xy_range_unit]; norm_num)
    (by rw [aabb_xy_range_unit]; norm_num)
    (by rw [aabb_xy_range_unit]; rw [show ((1, 1) : ℝ × ℝ).1 = 1 from rfl,
          show ((1, 1) : ℝ × ℝ).2 = 1 from rfl, x_sphere_num_unit]; norm_num)
    (by rw [aabb_xy_range_unit]; rw [show ((1, 1) : ℝ × ℝ).1 = 1 from rfl,
          show ((1, 1) : ℝ × ℝ).2 = 1 from rfl, y_sphere_num_unit]; norm_num)
    (fun m => ⟨le_rfl, by norm_num⟩) (fun m => ⟨le_rfl, by norm_num⟩)
    (by norm_num [sphere_num])
  exact ⟨h.1, h.2.1⟩

/-- Witness for C10 at a 1 × 4 footprint (grid 7 × 30, capacity 210) and
probe index 224, which falls back. -/
theorem reset_sphere_drop_fallback_quadrant_witness :
    (aabb_xy_center ⟨(0, 0, 0), (1, 4, 1)⟩).1
      ≤ ((sphere_drop_list ⟨(0, 0, 0), (1, 4, 1)⟩ (fun _ => 0) (fun _ => 0)).getD 224
          (0, 0, 0)).1
    ∧ ((sphere_drop_list ⟨(0, 0, 0), (1, 4, 1)⟩ (fun _ => 0) (fun _ => 0)).getD 224
          (0, 0, 0)).2.2
      = (⟨(0, 0, 0), (1, 4, 1)⟩ : AABB).hi.2.2 + 0.01 + 0.05 := by
  have h := reset_sphere_drop_fallback_quadrant ⟨(0, 0, 0), (1, 4, 1)⟩
    (fun _ => 0) (fun _ => 0) 224
    (by rw [aabb_xy_range_one_four]; norm_num)
    (by rw [aabb_xy_range_one_four]; norm_num)
    (by rw [aabb_xy_range_one_four]; rw [show ((1, 4) : ℝ × ℝ).1 = 1 from rfl,
          show ((1, 4) : ℝ × ℝ).2 = 4 from rfl, x_sphere_num_one_four]; norm_num)
    (fun m => ⟨le_rfl, by norm_num⟩) (fun m => ⟨le_rfl, by norm_num⟩)
    (by norm_num [sphere_num])
    (by rw [aabb_xy_range_one_four]; rw [show ((1, 4) : ℝ × ℝ).1 = 1 from rfl,
          show ((1, 4) : ℝ × ℝ).2 = 4 from rfl, x_sphere_num_one_four,
          y_sphere_num_one_four]; norm_num)
  exact ⟨h.1, h.2.2.2.2⟩

end ContainerImagination
